import Mathlib

/-!
Shallow embedding of the gh-pages-cli core: the state/outcome model
(`ghp/states.py`), the entity mapping layer (`ghp/objects.py`), the refresh
policies (`ghp/downloadable.py`), and the cached-request orchestrator
(`ghp/requests.py`).  Python exceptions are modelled with `Except`/`Option`
(`Except.error` marks a raised exception, `none` marks Python `None`), and
machine state (response, request_data, cache file content) is passed
explicitly.
-/

/-! ## states.py -/

/-- Simplified status enumeration `Ok` from `ghp/states.py` (an `IntEnum`
with busy = 0, ok = 1, fail = -1, error = -2). -/
inductive Ok
  | busy
  | ok
  | fail
  | error
deriving DecidableEq, Repr

/-- Integer value of each `Ok` member, as declared in the source. -/
def Ok.val : Ok → Int
  | .busy => 0
  | .ok => 1
  | .fail => -1
  | .error => -2

/-- Python truthiness of `Ok` (`__bool__` returns `value > 0`). -/
def Ok.toBool (o : Ok) : Bool := o.val > 0

/-- Progress states from `ghp/states.py` (`Progress`). -/
inductive Progress
  | queued
  | in_progress
  | completed
deriving DecidableEq, Repr

/-- The `Ok` member attached to each `Progress` member. -/
def Progress.ok : Progress → Ok
  | .queued => .busy
  | .in_progress => .busy
  | .completed => .ok

/-- Deploy/job status states from `ghp/states.py` (`Status`). -/
inductive Status
  | error
  | failure
  | pending
  | in_progress
  | queued
  | success
deriving DecidableEq, Repr

/-- The `Ok` member attached to each `Status` member. -/
def Status.ok : Status → Ok
  | .error => .fail
  | .failure => .fail
  | .pending => .busy
  | .in_progress => .busy
  | .queued => .busy
  | .success => .ok

/-- Pages build states from `ghp/states.py` (`BuildStatus`). -/
inductive BuildStatus
  | null
  | queued
  | building
  | built
  | errored
deriving DecidableEq, Repr

/-- The `Ok` member attached to each `BuildStatus` member. -/
def BuildStatus.ok : BuildStatus → Ok
  | .null => .busy
  | .queued => .busy
  | .building => .busy
  | .built => .ok
  | .errored => .fail

/-- Member table of `Progress` in declaration order, mirroring
`cls.__members__` of the Python enum. -/
def Progress.members : List (String × Progress) :=
  [("queued", .queued), ("in_progress", .in_progress), ("completed", .completed)]

/-- Python `str.lower()`, written characterwise over the string data. -/
def pyLower (s : String) : String := String.mk (s.data.map Char.toLower)

/-- The `AbstractState._missing_` hook from `ghp/states.py`: collect the
members whose name matches the value case-insensitively
(`name.lower() == value.lower()`) and return the first one; with no match
the enum machinery raises `ValueError` (modelled as `none`). -/
def lookupByName (members : List (String × α)) (value : String) : Option α :=
  ((members.filter (fun m => pyLower m.1 == pyLower value)).head?).map (fun m => m.2)

/-- Case-insensitive construction for `Progress` (`Progress("queued")` etc. in
the source goes through `AbstractState._missing_`). -/
def Progress.from_name (value : String) : Option Progress :=
  lookupByName Progress.members value

/-! ## objects.py — the generic state surface of `Object` -/

/-- A value held by an entity state attribute: one member of one of the three
state enumerations (the source stores `Progress`, `Status`, or `BuildStatus`
members in the `progress`/`status` attributes). -/
inductive StateV
  | prog (p : Progress)
  | stat (s : Status)
  | build (b : BuildStatus)
deriving DecidableEq, Repr

/-- The attached `Ok` member of a state value (`state.ok` in the source). -/
def StateV.ok : StateV → Ok
  | .prog p => p.ok
  | .stat s => s.ok
  | .build b => b.ok

/-- The state surface of one `Object` from `ghp/objects.py`.  For each of the
two conventional state attribute names (`progress`, `status`): the outer
`Option` is `none` when the attribute is not defined on the object at all
(`hasattr` is false, as for `Commit` which declares neither), and the inner
`Option` is `none` when the attribute exists but resolved to Python `None`
(the mapped JSON field was missing). -/
structure ObjectStates where
  progress : Option (Option StateV)
  status : Option (Option StateV)
deriving DecidableEq, Repr

/-- `Object.states`: generator of the defined attributes among
`("progress", "status")`, in that order. -/
def ObjectStates.states (o : ObjectStates) : List (Option StateV) :=
  o.progress.toList ++ o.status.toList

/-- `Object.is_ok`: `all(state and state.ok == Ok.ok for state in states)`.
A state set to Python `None` is falsy, so the conjunct it contributes is
false; a present state member is a nonempty `bytes` value and therefore
always truthy. -/
def ObjectStates.is_ok (o : ObjectStates) : Bool :=
  o.states.all (fun st =>
    match st with
    | some v => v.ok == Ok.ok
    | none => false)

/-- Python `min` on two `Ok` members (IntEnum comparison by value; `min`
keeps the earlier element on ties). -/
def minOk (a b : Ok) : Ok := if b.val < a.val then b else a

/-- `Object.ok`: `min(state.ok for state in states if state)`.  Python `min`
raises `ValueError` on an empty sequence, modelled as `none`. -/
def ObjectStates.ok (o : ObjectStates) : Option Ok :=
  match o.states.filterMap (fun st => st.map StateV.ok) with
  | [] => none
  | x :: xs => some (xs.foldl minOk x)

/-- `Object.is_open`: `any(not state or state.ok == Ok.busy for state in
states)`. -/
def ObjectStates.is_open (o : ObjectStates) : Bool :=
  o.states.any (fun st =>
    match st with
    | some v => v.ok == Ok.busy
    | none => true)

/-- Modelled from the spec (for the refinement check of claim C4): `is_ok`
is true iff every present state attribute has Outcome Ok, where a state
attribute that resolved to absence does not count against it. -/
def ObjectStates.is_ok_spec (o : ObjectStates) : Bool :=
  o.states.all (fun st =>
    match st with
    | some v => v.ok == Ok.ok
    | none => true)

/-! ## downloadable.py — refresh policies -/

/-- The run context read by the policies: the `--local` and `--refresh`
flags held by the `App` singleton (`App.APP.force_local`, `App.APP.refresh`).
The source aborts at startup when both flags are set, but the policy methods
themselves are total in the flags. -/
structure AppFlags where
  force_local : Bool
  refresh : Bool
deriving DecidableEq, Repr

/-- `Dynamic.should_refresh`: `not self.downloaded and App.APP.refresh`. -/
def Dynamic.should_refresh (app : AppFlags) (downloaded : Bool) : Bool :=
  !downloaded && app.refresh

/-- `Finite.should_refresh`: false when `--local` or already downloaded,
else `self.is_open`. -/
def Finite.should_refresh (app : AppFlags) (downloaded is_open : Bool) : Bool :=
  if app.force_local || downloaded then false else is_open

/-- `Additive.should_refresh`: false when `--local` or already downloaded,
else `self.is_open or App.APP.refresh`. -/
def Additive.should_refresh (app : AppFlags) (downloaded is_open : Bool) : Bool :=
  if app.force_local || downloaded then false else is_open || app.refresh

/-- `Static.should_refresh`: never refresh. -/
def Static.should_refresh : Bool := false

/-! ## String helpers used by the entity derivations

Python string operations are modelled characterwise over the string data
(Python indexes strings by code point, as the character list does). -/

/-- Split a character list at every character satisfying `p`, keeping the
(possibly empty) pieces between separators. -/
def splitChars (p : Char → Bool) : List Char → List (List Char)
  | [] => [[]]
  | c :: cs =>
    if p c then [] :: splitChars p cs
    else
      match splitChars p cs with
      | [] => [[c]]
      | piece :: rest => (c :: piece) :: rest

/-- Python `str.split()` with no argument: split on whitespace, discarding
empty pieces. -/
def splitWS (s : String) : List String :=
  ((splitChars Char.isWhitespace s.data).map String.mk).filter (fun t => t != "")

/-- Python `str.splitlines()` (for newline-separated text): split on the
line separator, where a trailing newline does not produce a final empty
line and the empty string yields no lines. -/
def splitlines (s : String) : List String :=
  let parts := (splitChars (fun c => c == '\n') s.data).map String.mk
  match parts.getLast? with
  | some "" => parts.dropLast
  | _ => parts

/-- Whether `pat` occurs in `s` starting at character index `i`. -/
def substrEq (s : String) (i : Nat) (pat : String) : Bool :=
  ((s.data.drop i).take pat.length) == pat.data

/-- Python `str.rfind(pat)`: the highest character index where `pat` occurs,
or `-1` when it does not occur. -/
def rfind (s pat : String) : Int :=
  match (List.range (s.length - pat.length + 1)).reverse.find?
      (fun i => substrEq s i pat) with
  | some i => (i : Int)
  | none => -1

/-- Python `str.find(pat)` on character lists: the lowest index where `pat`
occurs, or `None` when it does not occur. -/
def pyFind (pat : List Char) : List Char → Option Nat
  | [] => if pat.isEmpty then some 0 else none
  | c :: cs =>
    if ((c :: cs).take pat.length) == pat then some 0
    else (pyFind pat cs).map (fun n => n + 1)

/-- Python slice `s[0:e]` for an integer bound `e`, which counts from the
end when negative (clamped at zero). -/
def pySliceTo (s : String) (e : Int) : String :=
  if e < 0 then String.mk (s.data.take (((s.length : Int) + e).toNat))
  else String.mk (s.data.take e.toNat)

/-- Python `str.strip()`: remove leading and trailing whitespace. -/
def pyStrip (s : String) : String :=
  String.mk
    (((s.data.dropWhile Char.isWhitespace).reverse.dropWhile
        Char.isWhitespace).reverse)

/-! ## JSON values and `rget` (objects.py) -/

/-- JSON documents as received from the GitHub API. -/
inductive Json
  | null
  | bool (b : Bool)
  | num (n : Int)
  | str (s : String)
  | arr (items : List Json)
  | obj (fields : List (String × Json))

/-- Python truthiness of a JSON value (`not source` in `rget`). -/
def Json.truthy : Json → Bool
  | .null => false
  | .bool b => b
  | .num n => n != 0
  | .str s => s != ""
  | .arr items => !items.isEmpty
  | .obj fields => !fields.isEmpty

/-- Lookup in a JSON object, i.e. `dict.get(key)` returning `None` when the
key is missing (`none` when the value is not a dict at all, where Python
`dict.get` does not arise). -/
def Json.get : Json → String → Option Json
  | .obj fields, k => (fields.find? (fun p => p.1 == k)).map (fun p => p.2)
  | _, _ => none

/-- The `dict.get(key, {})` used in the recursive step of `rget`. -/
def Json.getD (source : Json) (k : String) : Json :=
  (source.get k).getD (.obj [])

/-- The `rget` helper from `ghp/objects.py`, on an already-split key list:
return `None` for empty keys or a falsy source; otherwise pop the first key
and either recurse on `source.get(key, {})` (keys remaining) or return
`source.get(key)` (last key).  Descending with remaining keys into a truthy
non-dict value crashes in Python (`AttributeError`), modelled as
`Except.error`. -/
def rget : List String → Json → Except String (Option Json)
  | [], _ => .ok none
  | k :: rest, source =>
    if !source.truthy then .ok none
    else
      if rest.isEmpty then
        match source with
        | .obj fields => .ok (Json.get (.obj fields) k)
        | _ => .error "AttributeError"
      else
        match source with
        | .obj _ => rget rest (source.getD k)
        | _ => .error "AttributeError"

/-- The string-keyed entry point of `rget`: `if not keys: return` for the
empty string, else split on "." and descend. -/
def rgetS (source : Json) (keys : String) : Except String (Option Json) :=
  if keys = "" then .ok none
  else rget ((splitChars (fun c => c == '.') keys.data).map String.mk) source

/-- A dot-path is missing from a document: somewhere along the descent the
current segment is not a key of the current dict (with segments still
remaining, or as the last segment). -/
inductive MissingAt : Json → List String → Prop
  | here (fields : List (String × Json)) (k : String) (rest : List String) :
      Json.get (.obj fields) k = none → MissingAt (.obj fields) (k :: rest)
  | there (fields : List (String × Json)) (k : String) (rest : List String)
      (v : Json) :
      rest ≠ [] → Json.get (.obj fields) k = some v → MissingAt v rest →
      MissingAt (.obj fields) (k :: rest)

/-! ## objects.py — Commit and Deploy derivations -/

/-- `Commit.message`: `first(self.body.splitlines(), "")`, the first line of
the commit message body. -/
def Commit.message (body : String) : String :=
  (splitlines body).headD ""

/-- `Deploy.master_sha`: return `None` for a falsy commit body; otherwise
take `body.split()[-1]` (an `IndexError` on a whitespace-only body, modelled
as `Except.error`) and accept it only when it is exactly 40 characters
long, returning `None` otherwise. -/
def Deploy.master_sha (body : String) : Except String (Option String) :=
  if body == "" then .ok none
  else
    match (splitWS body).getLast? with
    | none => .error "IndexError"
    | some sha => if sha.length == 40 then .ok (some sha) else .ok none

/-- `Deploy.message`, as a function of the deploy commit body: when
`master_sha` is `None` return `commit.message` unchanged; otherwise compute
`end = commit.message.rfind(" " + master_sha)` and — because the walrus
`if end := ...` tests integer truthiness — return the slice
`commit.message[0:end]` whenever `end` is nonzero (including `-1`, the
not-found result), and the unchanged message only when `end` is `0`. -/
def Deploy.message (body : String) : Except String String := do
  let msha ← Deploy.master_sha body
  let cm := Commit.message body
  match msha with
  | none => .ok cm
  | some sha =>
    let e := rfind cm (" " ++ sha)
    if e != 0 then .ok (pySliceTo cm e) else .ok cm

/-! ## objects.py — PagesBuild error-message derivations -/

/-- Python `str.partition(sep)`: split at the first occurrence of `sep` into
the three parts (before, sep, after); when `sep` does not occur the result
is `(s, "", "")`. -/
def partition (s sep : String) : List String :=
  match pyFind sep.data s.data with
  | none => [s, "", ""]
  | some i =>
    [String.mk (s.data.take i), sep, String.mk (s.data.drop (i + sep.length))]

/-- The literal separator used by `PagesBuild.message_parts`. -/
def PagesBuild.SEP : String := "For more information, see"

/-- `PagesBuild.message_parts`, as a function of the raw `error.message`
field (outer `none` = attribute resolved to Python `None`): return `None`
for a falsy message; otherwise partition it on the separator and assert that
exactly three parts came back (`Except.error` models the `AssertionError`
branch). -/
def PagesBuild.message_parts (message : Option String) :
    Except String (Option (List String)) :=
  match message with
  | none => .ok none
  | some m =>
    if m == "" then .ok none
    else
      let parts := partition m PagesBuild.SEP
      if parts.length == 3 then .ok (some parts)
      else .error "Failed to partiton error message"

/-- `PagesBuild.more_info`: `None` for a falsy message, else
`last(self.message_parts).strip()`. -/
def PagesBuild.more_info (message : Option String) :
    Except String (Option String) :=
  match message with
  | none => .ok none
  | some m =>
    if m == "" then .ok none
    else do
      let mp ← PagesBuild.message_parts (some m)
      match mp with
      | some parts => .ok (some (pyStrip (parts.getLastD "")))
      | none => .ok none

/-- `PagesBuild.error`: the empty string for a falsy message, else
`first(self.message_parts).strip()`. -/
def PagesBuild.error (message : Option String) : Except String String :=
  match message with
  | none => .ok ""
  | some m =>
    if m == "" then .ok ""
    else do
      let mp ← PagesBuild.message_parts (some m)
      match mp with
      | some parts => .ok (pyStrip (parts.headD ""))
      | none => .ok ""

/-! ## types.py Missing and objects.py Run.find_deploy -/

/-- Python truthiness of a `Missing()` instance (`__bool__` returns
`False`). -/
def Missing.toBool : Bool := false

/-- String conversion of a `Missing()` instance (`__str__` returns the
empty string). -/
def Missing.toStr : String := ""

/-- A deploy as seen by `Run.find_deploy`: its derived `master_sha` value
(the derivation itself is `Deploy.master_sha` above) and an identifier to
tell deploys apart. -/
structure DeployM where
  id : Nat
  master_sha : Option String
deriving DecidableEq, Repr

/-- The value of `Run.deploy`: `None` as assigned by `Run.__init__` (never
looked up), a `Deploy` match, or a `Missing()` sentinel. -/
inductive Lookup
  | initNone
  | found (d : DeployM)
  | missing
deriving DecidableEq, Repr

/-- The part of a `Run` that `find_deploy` touches: the run's `head_sha`
(which may itself be absent) and its `deploy` slot. -/
structure RunM where
  sha : Option String
  deploy : Lookup
deriving DecidableEq, Repr

/-- `Run.__init__` leaves `self.deploy = None`. -/
def Run.init (sha : Option String) : RunM :=
  { sha := sha, deploy := Lookup.initNone }

/-- `Run.find_deploy`: filter the deploys whose `master_sha` equals the
run's `sha` (Python `==`, where `None == None` holds), store the first
match — or a `Missing()` sentinel when there is none — into `self.deploy`,
and return the stored value. -/
def Run.find_deploy (run : RunM) (deploys : List DeployM) : RunM × Lookup :=
  let res := deploys.filter (fun d => d.master_sha == run.sha)
  match res.head? with
  | some d => ({ run with deploy := Lookup.found d }, Lookup.found d)
  | none => ({ run with deploy := Lookup.missing }, Lookup.missing)

/-! ## requests.py — the cached-request orchestrator

The embedding fixes one request instance of a parent-scoped kind (for
example `StatusRequest`, a `ChildRequest` with the `Finite` policy), whose
cache file path is a fixed function of the parent id, so the on-disk cache
for this request is a single file slot.  The entity layer's openness check
(`self.is_open`, computed from `self.data`) is abstracted as an oracle
`openOf` over the raw document, and `fetches` counts the network requests
made by `Request.request` (instrumentation only — not a source field). -/

/-- `RequestError.__init__`: capture status code, reason, and the
`message`/`documentation_url` fields of the response body. -/
structure RequestErrorM where
  code : Nat
  reason : String
  message : Option Json
  docs : Option Json

/-- The transport response handed back by `requests.request`. -/
structure Response where
  ok : Bool
  status_code : Nat
  reason : String
  body : Json

/-- Build a `RequestError` from a failed response. -/
def mkRequestError (response : Response) : RequestErrorM :=
  { code := response.status_code, reason := response.reason,
    message := response.body.get "message",
    docs := response.body.get "documentation_url" }

/-- The mutable state of one request instance: `self.error`,
`self.response`, `self.request_data`, the content of the cache file at
`self.filepath`, and `self.downloaded`. -/
structure ReqState where
  error : Option RequestErrorM
  response : Option Response
  request_data : Option Json
  cache : Option Json
  downloaded : Bool
  fetches : Nat

/-- `Request.request`: perform the network call; when the response is not
ok, record a `RequestError` in `self.error` and return (no exception is
raised). -/
def Request.request (st : ReqState) (resp : Response) : ReqState :=
  let st1 := { st with response := some resp, fetches := st.fetches + 1 }
  if !resp.ok then { st1 with error := some (mkRequestError resp) } else st1

/-- `Request.store`: `self.request_data = self.response.json()`,
unconditionally (also after a failed request). -/
def Request.store (st : ReqState) : ReqState :=
  { st with request_data := st.response.map (fun r => r.body) }

/-- `Request.download`: `self.request()` then `self.store()`. -/
def Request.download (st : ReqState) (resp : Response) : ReqState :=
  Request.store (Request.request st resp)

/-- `Request.write`: dump `self.request_data` to the cache file. -/
def Request.write (st : ReqState) : ReqState :=
  { st with cache := st.request_data }

/-- `Request.load`: read the cache file into `self.request_data` when the
file exists, else return unchanged. -/
def Request.load (st : ReqState) : ReqState :=
  match st.cache with
  | none => st
  | some c => { st with request_data := some c }

/-- `ChildRequest.exists`: `self.filepath.is_file()`. -/
def Request.fileExists (st : ReqState) : Bool := st.cache.isSome

/-- `Request.refresh` for a `Finite` request: return unless
`should_refresh`; otherwise `download()`, `store()`, reset `_filepath` (a
no-op for a parent-scoped request, whose `filepath` is fixed), and
`write()`. -/
def Request.refresh (app : AppFlags) (openOf : Option Json → Bool)
    (resp : Response) (st : ReqState) : ReqState :=
  if !(Finite.should_refresh app st.downloaded (openOf st.request_data)) then st
  else Request.write (Request.store (Request.download st resp))

/-- `Request.get`: load the cache file when it exists, else download and
write; then `refresh()`. -/
def Request.get (app : AppFlags) (openOf : Option Json → Bool)
    (resp : Response) (st : ReqState) : ReqState :=
  let st1 := if Request.fileExists st then Request.load st
             else Request.write (Request.download st resp)
  Request.refresh app openOf resp st1

/-- The state set up by `Request.__init__` before `get()` runs:
`self.error = None`, `self.response = None`, `self.downloaded = False`,
with the given cache file content on disk. -/
def Request.initState (cache : Option Json) : ReqState :=
  { error := none, response := none, request_data := none,
    cache := cache, downloaded := false, fetches := 0 }

/-! ## Helper lemmas -/

/-- The head of a filtered list is the first element satisfying the
predicate. -/
theorem filter_head_eq_find {α : Type} (p : α → Bool) (l : List α) :
    (l.filter p).head? = l.find? p := by
  induction l with
  | nil => rfl
  | cons a t ih =>
    by_cases h : p a <;> simp [List.filter_cons, List.find?_cons, h, ih]

/-! ## Claims -/

/-- C2: for every combination of force-local, force-refresh,
already-fetched-this-run and represented-data-open, the four refresh
policies compute `should_refresh` exactly as the spec table states:
Dynamic is true iff force-refresh is set and nothing was fetched yet this
run; Finite is false under force-local or already-fetched, else openness;
Additive is false under force-local or already-fetched, else openness or
force-refresh; Static is always false. -/
theorem C2_refresh_policy_table :
    ∀ fl fr df op : Bool,
      Dynamic.should_refresh ⟨fl, fr⟩ df = (fr && !df) ∧
      Finite.should_refresh ⟨fl, fr⟩ df op = (!fl && !df && op) ∧
      Additive.should_refresh ⟨fl, fr⟩ df op = (!fl && !df && (op || fr)) ∧
      Static.should_refresh = false := by decide

/-- Witness for C2 at a concrete tuple: Finite with force-local and open
gives false, Additive with only force-refresh set gives true. -/
theorem C2_refresh_policy_table_witness :
    Finite.should_refresh ⟨true, false⟩ false true = false ∧
    Additive.should_refresh ⟨false, true⟩ false false = true :=
  ⟨(C2_refresh_policy_table true false false true).2.1,
   (C2_refresh_policy_table false true false false).2.2.1⟩

/-- C4 counterexample: an entity whose only state attribute resolved to
absence (for example a `Pages` object whose `status` field is missing) has
`is_ok = False` in the source, while the claim (absence does not count
against `is_ok`, which is vacuously true over the present states) predicts
`True`. -/
theorem C4_absent_state_counterexample :
    ObjectStates.is_ok { progress := none, status := some none } = false ∧
    ObjectStates.is_ok_spec { progress := none, status := some none } = true := by
  decide

/-- C4 (amended): `is_ok` is true iff every state attribute is set to a
present state value whose Outcome is Ok — an attribute that resolved to
absence counts against it — and it is vacuously true with zero state
attributes. -/
theorem C4_is_ok_amended (o : ObjectStates) :
    o.is_ok = true ↔ ∀ st ∈ o.states, ∃ v, st = some v ∧ v.ok = Ok.ok := by
  simp only [ObjectStates.is_ok, List.all_eq_true]
  constructor
  · intro h st hst
    have hs := h st hst
    cases st with
    | none => simp at hs
    | some v =>
      refine ⟨v, rfl, ?_⟩
      simpa using hs
  · intro h st hst
    obtain ⟨v, rfl, hv⟩ := h st hst
    simpa using hv

/-- Witness for C4 at a concrete entity: a completed progress with a
success status is ok. -/
theorem C4_is_ok_amended_witness :
    ObjectStates.is_ok
      { progress := some (some (.prog .completed)),
        status := some (some (.stat .success)) } = true :=
  (C4_is_ok_amended _).mpr (by decide)

/-- C5: `Object.ok` takes `min` of an empty sequence — a `ValueError`,
modelled as `none` — exactly when every state attribute is absent (which
includes having zero state attributes); it returns an Outcome only when at
least one state attribute is present and set. -/
theorem C5_ok_empty_aggregate (o : ObjectStates) :
    o.ok = none ↔ ∀ st ∈ o.states, st = none := by
  cases h : o.states.filterMap (fun st => st.map StateV.ok) with
  | nil =>
    simp only [List.filterMap_eq_nil_iff] at h
    constructor
    · intro _ st hst
      exact Option.map_eq_none'.mp (h st hst)
    · intro _
      simp [ObjectStates.ok, List.filterMap_eq_nil_iff.mpr h]
  | cons x xs =>
    constructor
    · intro hc
      simp [ObjectStates.ok, h] at hc
    · intro hall
      exfalso
      have hx : x ∈ o.states.filterMap (fun st => st.map StateV.ok) := by
        rw [h]; exact List.mem_cons_self x xs
      obtain ⟨st, hst, hmap⟩ := List.mem_filterMap.mp hx
      rw [hall st hst] at hmap
      simp at hmap

/-- Witness for C5 at a concrete entity: with both state attributes
resolved to absence, `ok` has no value. -/
theorem C5_ok_empty_aggregate_witness :
    ObjectStates.ok { progress := some none, status := some none } = none :=
  (C5_ok_empty_aggregate _).mpr (by decide)

/-- C6: `LifecycleState` construction from a string name is
case-insensitive — "QUEUED", "queued" and "Queued" all yield the `queued`
member — and an unrecognized name such as "bogus" fails (the enum raises
`ValueError`, modelled as `none`) instead of defaulting to any member. -/
theorem C6_from_name_case_insensitive :
    Progress.from_name "QUEUED" = some Progress.queued ∧
    Progress.from_name "queued" = some Progress.queued ∧
    Progress.from_name "Queued" = some Progress.queued ∧
    Progress.from_name "bogus" = none := by decide

/-- C1 (code evaluated at the failing input): a Finite parent-scoped
request starts with a valid cache file and an open entity; the transport
then fails with HTTP 404 whose body is an error document.  The claim says a
FetchError is surfaced and the previously written cache file is unchanged;
the code instead records a `RequestError` in `self.error` (a field nothing
in the repository ever reads), stores the error body as `request_data`,
and overwrites the cache file with it while returning normally. -/
theorem C1_failed_fetch_overwrites_cache :
    (Request.get ⟨false, false⟩ (fun _ => true)
        ⟨false, 404, "Not Found",
          .obj [("message", .str "Not Found"),
                ("documentation_url", .str "https://docs.github.com/rest")]⟩
        (Request.initState (some (.arr [.obj [("id", .num 1)]])))).cache =
      some (.obj [("message", .str "Not Found"),
                  ("documentation_url", .str "https://docs.github.com/rest")]) ∧
    some (Json.obj [("message", .str "Not Found"),
                    ("documentation_url", .str "https://docs.github.com/rest")]) ≠
      some (Json.arr [.obj [("id", .num 1)]]) ∧
    (Request.get ⟨false, false⟩ (fun _ => true)
        ⟨false, 404, "Not Found",
          .obj [("message", .str "Not Found"),
                ("documentation_url", .str "https://docs.github.com/rest")]⟩
        (Request.initState (some (.arr [.obj [("id", .num 1)]])))).error.isSome =
      true := by
  refine ⟨rfl, ?_, rfl⟩
  intro h
  injection h with h1
  cases h1

/-- C3 (code evaluated at the failing input): a Finite parent-scoped
request with no cache file on disk and an open entity, with neither
`--local` nor `--refresh` set and the transport succeeding.  The claim says
the first-time fetch marks `downloaded = True` so the policy does not
trigger a second download in the same run; the code never assigns
`downloaded = True`, so `refresh()` immediately downloads the same resource
again — two network fetches. -/
theorem C3_first_fetch_not_marked_downloaded :
    (Request.get ⟨false, false⟩ (fun _ => true) ⟨true, 200, "OK", .obj [("id", .num 1)]⟩
        (Request.initState none)).downloaded = false ∧
    (Request.get ⟨false, false⟩ (fun _ => true) ⟨true, 200, "OK", .obj [("id", .num 1)]⟩
        (Request.initState none)).fetches = 2 :=
  ⟨rfl, rfl⟩

/-- C7 (code evaluated at the failing input): on the spec's example body
the derivations hold — `master_sha` is the 40-character final token and
`message` is "Update docs" — but on a commit body whose first line does not
contain the sha ("Fix stuff" followed by the sha on its own line) the claim
says `message` equals the commit message unchanged, while the code returns
it with the last character chopped off: `str.rfind` yields `-1`, which the
walrus `if end := ...` treats as truthy, so the code slices
`message[0:-1]`. -/
theorem C7_deploy_message_walrus_bug :
    Deploy.master_sha "Update docs abcdef0123456789abcdef0123456789abcdef01" =
      .ok (some "abcdef0123456789abcdef0123456789abcdef01") ∧
    Deploy.message "Update docs abcdef0123456789abcdef0123456789abcdef01" =
      .ok "Update docs" ∧
    Deploy.master_sha "Fix stuff\nabcdef0123456789abcdef0123456789abcdef01" =
      .ok (some "abcdef0123456789abcdef0123456789abcdef01") ∧
    Deploy.message "Fix stuff\nabcdef0123456789abcdef0123456789abcdef01" =
      .ok "Fix stuf" ∧
    "Fix stuf" ≠ "Fix stuff" := by
  exact ⟨rfl, rfl, rfl, rfl, by decide⟩

/-- C8 counterexample: a pages-build whose raw error message does not
contain the separator does not fail with a malformed-message error as the
claim states — `str.partition` always returns three parts, so the assert
never fires; the code succeeds with `error` the whole stripped message and
`more_info` the empty string. -/
theorem C8_no_separator_counterexample :
    PagesBuild.message_parts (some "Something broke.") =
      .ok (some ["Something broke.", "", ""]) ∧
    PagesBuild.more_info (some "Something broke.") = .ok (some "") ∧
    PagesBuild.error (some "Something broke.") = .ok "Something broke." :=
  ⟨rfl, rfl, rfl⟩

/-- C8 (amended): for every pages-build with a non-empty raw error message,
partitioning on the literal separator yields exactly three parts (before,
separator, after) and never signals an error; `error` is the stripped text
before the separator and `more_info` the stripped text after it — on the
example message they are "Something broke." and "https://x" — and a message
without the separator degrades gracefully to (message, "", ""). -/
theorem C8_message_parts_amended :
    PagesBuild.error
        (some "Something broke. For more information, see https://x") =
      .ok "Something broke." ∧
    PagesBuild.more_info
        (some "Something broke. For more information, see https://x") =
      .ok (some "https://x") ∧
    ∀ m : String, m ≠ "" →
      (partition m PagesBuild.SEP).length = 3 ∧
      PagesBuild.message_parts (some m) =
        .ok (some (partition m PagesBuild.SEP)) := by
  refine ⟨rfl, rfl, ?_⟩
  intro m hm
  have hlen : (partition m PagesBuild.SEP).length = 3 := by
    unfold partition
    cases pyFind PagesBuild.SEP.data m.data <;> simp
  have hne : (m == "") = false := by simpa using hm
  exact ⟨hlen, by simp [PagesBuild.message_parts, hne, hlen]⟩

/-- Witness for C8 at the concrete message "x". -/
theorem C8_message_parts_amended_witness :
    (partition "x" PagesBuild.SEP).length = 3 ∧
    PagesBuild.message_parts (some "x") =
      .ok (some (partition "x" PagesBuild.SEP)) :=
  C8_message_parts_amended.2.2 "x" (by decide)

/-- C9: for every run and every deploys list, `find_deploy` returns and
stores the first deploy whose derived `master_sha` equals the run's head
sha when one exists, and otherwise the `Missing()` sentinel, which is falsy,
stringifies to the empty string, and is a value distinct from the `None`
that `Run.__init__` put in the never-looked-up `deploy` slot. -/
theorem C9_find_deploy_first_match (run : RunM) (deploys : List DeployM) :
    (∀ d, deploys.find? (fun d => d.master_sha == run.sha) = some d →
        Run.find_deploy run deploys =
          ({ run with deploy := Lookup.found d }, Lookup.found d)) ∧
    (deploys.find? (fun d => d.master_sha == run.sha) = none →
        Run.find_deploy run deploys =
          ({ run with deploy := Lookup.missing }, Lookup.missing)) ∧
    Missing.toBool = false ∧
    Missing.toStr = "" ∧
    Lookup.missing ≠ Lookup.initNone := by
  refine ⟨?_, ?_, rfl, rfl, by decide⟩
  · intro d hd
    simp [Run.find_deploy, filter_head_eq_find, hd]
  · intro hd
    simp [Run.find_deploy, filter_head_eq_find, hd]

/-- Witness for C9 at a concrete run and deploys list: the second deploy is
the first whose `master_sha` matches. -/
theorem C9_find_deploy_first_match_witness :
    Run.find_deploy (Run.init (some "abc"))
        [⟨1, none⟩, ⟨2, some "abc"⟩, ⟨3, some "abc"⟩] =
      ({ Run.init (some "abc") with deploy := Lookup.found ⟨2, some "abc"⟩ },
        Lookup.found ⟨2, some "abc"⟩) :=
  (C9_find_deploy_first_match (Run.init (some "abc")) _).1
    ⟨2, some "abc"⟩ (by decide)

/-- Unfolding lemma: with any key left, `rget` on a falsy source is
absent. -/
theorem rget_falsy (k : String) (rest : List String) (source : Json)
    (h : source.truthy = false) : rget (k :: rest) source = .ok none := by
  simp [rget, h]

/-- Unfolding lemma: on a nonempty dict and a last key, `rget` returns the
dict lookup. -/
theorem rget_last_obj (k : String) (p : String × Json)
    (ps : List (String × Json)) :
    rget [k] (.obj (p :: ps)) = .ok (Json.get (.obj (p :: ps)) k) := rfl

/-- Unfolding lemma: on a nonempty dict with keys remaining, `rget` recurses
on `source.get(key, default-empty-dict)`. -/
theorem rget_step_obj (k r : String) (rs : List String) (p : String × Json)
    (ps : List (String × Json)) :
    rget (k :: r :: rs) (.obj (p :: ps)) =
      rget (r :: rs) ((Json.obj (p :: ps)).getD k) := rfl

/-- C10: `rget` satisfies the spec equations — "manager" resolves to the
top-level value, "ops.manager" descends, `rget` on an empty dict is absent —
and for every document and dot-path with a segment missing along the
descent, `rget` returns absence without raising. -/
theorem C10_rget_path_resolution :
    rgetS (.obj [("ops", .obj [("manager", .str "Joe")]), ("manager", .str "Bill")])
        "manager" = .ok (some (.str "Bill")) ∧
    rgetS (.obj [("ops", .obj [("manager", .str "Joe")]), ("manager", .str "Bill")])
        "ops.manager" = .ok (some (.str "Joe")) ∧
    rgetS (.obj []) "a.b" = .ok none ∧
    ∀ source keys, MissingAt source keys → rget keys source = .ok none := by
  refine ⟨rfl, rfl, rfl, ?_⟩
  intro source keys h
  induction h with
  | here fields k rest hget =>
    cases fields with
    | nil => exact rget_falsy k rest _ rfl
    | cons p ps =>
      cases rest with
      | nil => rw [rget_last_obj, hget]
      | cons r rs =>
        rw [rget_step_obj, Json.getD, hget, Option.getD_none]
        exact rget_falsy r rs _ rfl
  | there fields k rest v hrest hget hmiss ih =>
    cases fields with
    | nil => simp [Json.get] at hget
    | cons p ps =>
      cases rest with
      | nil => exact absurd rfl hrest
      | cons r rs =>
        rw [rget_step_obj, Json.getD, hget, Option.getD_some]
        exact ih

/-- Witness for C10 at a concrete document and path: "a.b.c" with "b"
missing under "a" resolves to absence. -/
theorem C10_rget_path_resolution_witness :
    rget ["a", "b", "c"] (.obj [("a", .obj [("x", .str "1")])]) = .ok none :=
  C10_rget_path_resolution.2.2.2 _ _
    (MissingAt.there _ "a" ["b", "c"] (.obj [("x", .str "1")])
      (by decide) rfl
      (MissingAt.here _ "b" ["c"] rfl))
